import Mathlib

/-!
# Verification of the chart recommendation / validation / SQL-shaping core

Shallow embedding of the modules `visualization/chart_types.py`,
`database/queries.py` and `visualization/insights.py` of the
`mcp-visualization-duckdb` repository, together with theorems settling the
frozen claims about them.

Modelling conventions:
* Python `dict`s are embedded as association lists (`List (k × v)`);
  a dict built by comprehension keeps the *last* binding for a key.
* Python strings are Lean `String`s; all recursion is structural over
  `List Char` so every definition evaluates inside the kernel.
* Functions that can `raise` are embedded with `Except String`.
* `float` series in the insights module are embedded as exact rationals.
-/

/-! ## String utilities -/

/-- ASCII upper-casing of one character, as CPython does for the
identifiers appearing here (all input tokens are ASCII). -/
def charUpper (c : Char) : Char :=
  if 'a' ≤ c ∧ c ≤ 'z' then Char.ofNat (c.toNat - 32) else c

/-- ASCII lower-casing of one character. -/
def charLower (c : Char) : Char :=
  if 'A' ≤ c ∧ c ≤ 'Z' then Char.ofNat (c.toNat + 32) else c

/-- `str.upper()` on an ASCII string. -/
def strUpper (s : String) : String := ⟨s.data.map charUpper⟩

/-- `str.lower()` on an ASCII string. -/
def strLower (s : String) : String := ⟨s.data.map charLower⟩

/-- Does `xs` start with `needle`? -/
def startsWithL : List Char → List Char → Bool
  | [], _ => true
  | _ :: _, [] => false
  | n :: ns, h :: hs => n == h && startsWithL ns hs

/-- Substring search: Python's `needle in hay`. -/
def hasSubL (needle : List Char) : List Char → Bool
  | [] => startsWithL needle []
  | h :: hs => startsWithL needle (h :: hs) || hasSubL needle hs

/-- Python `token in s` on strings. -/
def strContains (hay token : String) : Bool := hasSubL token.data hay.data

/-! ## Column classifier (`ChartTypeRegistry._categorize_column_type`) -/

/-- `_categorize_column_type`: map a raw SQL type label to the semantic
category used by validation and scoring. -/
def categorize_column_type (sql_type : String) : String :=
  let u := strUpper sql_type
  if ["INTEGER", "BIGINT", "DOUBLE", "FLOAT", "DECIMAL", "NUMERIC",
      "REAL"].any (fun t => strContains u t) then "numeric"
  else if ["DATE", "TIMESTAMP", "TIME"].any (fun t => strContains u t) then
    "temporal"
  else if ["VARCHAR", "TEXT", "STRING", "CHAR"].any (fun t => strContains u t) then
    "categorical"
  else if strContains u "BOOLEAN" || strContains u "BOOL" then "categorical"
  else "categorical"

/-! ## Chart definition catalog (`ChartTypeRegistry._initialize_definitions`) -/

inductive InsightType where
  | max | min | mean | median | distinct_count | total_count
  | correlation | trend | outliers | distribution
deriving DecidableEq, Repr

structure ColumnRequirement where
  name : String
  required : Bool
  data_types : List String
  description : String
deriving DecidableEq, Repr

structure ChartDefinition where
  /-- The `ChartType` enum key, embedded by its string value. -/
  chart_type : String
  name : String
  description : String
  use_cases : List String
  column_requirements : List ColumnRequirement
  supported_insights : List InsightType
  min_columns : Nat
  max_columns : Option Nat := none
deriving DecidableEq, Repr

def barDefinition : ChartDefinition :=
  { chart_type := "bar"
    name := "Bar Chart"
    description := "Compare values across different categories"
    use_cases := ["Compare sales by region", "Show counts by category",
      "Display rankings", "Compare performance metrics"]
    column_requirements :=
      [⟨"x_axis", true, ["categorical"], "Categories to compare"⟩,
       ⟨"y_axis", true, ["numeric"], "Values to display"⟩,
       ⟨"color", false, ["categorical"], "Additional grouping dimension"⟩]
    supported_insights := [.max, .min, .mean, .total_count, .distinct_count]
    min_columns := 2 }

def lineDefinition : ChartDefinition :=
  { chart_type := "line"
    name := "Line Chart"
    description := "Show trends and changes over continuous data"
    use_cases := ["Show trends over time", "Display continuous relationships",
      "Track changes in metrics", "Compare multiple series"]
    column_requirements :=
      [⟨"x_axis", true, ["numeric", "temporal"], "Continuous or time-based data"⟩,
       ⟨"y_axis", true, ["numeric"], "Values to track"⟩,
       ⟨"color", false, ["categorical"], "Series grouping"⟩]
    supported_insights := [.trend, .max, .min, .mean, .correlation]
    min_columns := 2 }

def scatterDefinition : ChartDefinition :=
  { chart_type := "scatter"
    name := "Scatter Plot"
    description := "Explore relationships between two numeric variables"
    use_cases := ["Find correlations between variables",
      "Identify clusters and outliers", "Explore data relationships",
      "Show data distribution patterns"]
    column_requirements :=
      [⟨"x_axis", true, ["numeric"], "First numeric variable"⟩,
       ⟨"y_axis", true, ["numeric"], "Second numeric variable"⟩,
       ⟨"color", false, ["categorical", "numeric"], "Point coloring"⟩,
       ⟨"size", false, ["numeric"], "Point sizing"⟩]
    supported_insights := [.correlation, .outliers, .distribution, .max, .min, .mean]
    min_columns := 2 }

def pieDefinition : ChartDefinition :=
  { chart_type := "pie"
    name := "Pie Chart"
    description := "Show proportions and parts of a whole"
    use_cases := ["Show market share breakdown", "Display category proportions",
      "Show budget allocation", "Demonstrate composition"]
    column_requirements :=
      [⟨"category", true, ["categorical"], "Categories for slices"⟩,
       ⟨"values", true, ["numeric"], "Values for slice sizes"⟩]
    supported_insights := [.total_count, .distinct_count, .max, .min]
    min_columns := 2 }

def histogramDefinition : ChartDefinition :=
  { chart_type := "histogram"
    name := "Histogram"
    description := "Show distribution of a numeric variable"
    use_cases := ["Analyze data distribution", "Find data patterns",
      "Identify skewness", "Check for normality"]
    column_requirements :=
      [⟨"column", true, ["numeric"], "Numeric column to analyze"⟩]
    supported_insights := [.distribution, .mean, .median, .max, .min, .outliers]
    min_columns := 1 }

def boxDefinition : ChartDefinition :=
  { chart_type := "box"
    name := "Box Plot"
    description := "Show distribution with quartiles and outliers"
    use_cases := ["Compare distributions across groups", "Identify outliers",
      "Show data spread and skewness", "Statistical distribution analysis"]
    column_requirements :=
      [⟨"column", true, ["numeric"], "Numeric column for distribution"⟩,
       ⟨"groupby", false, ["categorical"], "Grouping variable"⟩]
    supported_insights := [.outliers, .distribution, .median, .max, .min]
    min_columns := 1 }

def heatmapDefinition : ChartDefinition :=
  { chart_type := "heatmap"
    name := "Heatmap"
    description := "Show patterns in 2D data or correlation matrix"
    use_cases := ["Display correlation matrices",
      "Show patterns across two dimensions", "Visualize intensity data",
      "Compare values across grid"]
    column_requirements :=
      [⟨"x_axis", true, ["categorical", "numeric"], "First dimension"⟩,
       ⟨"y_axis", true, ["categorical", "numeric"], "Second dimension"⟩,
       ⟨"values", false, ["numeric"], "Values for intensity"⟩]
    supported_insights := [.correlation, .max, .min, .mean, .distribution]
    min_columns := 2 }

def areaDefinition : ChartDefinition :=
  { chart_type := "area"
    name := "Area Chart"
    description := "Show cumulative values and filled trends"
    use_cases := ["Show cumulative totals over time", "Display stacked categories",
      "Emphasize magnitude of change", "Show contribution to total"]
    column_requirements :=
      [⟨"x_axis", true, ["numeric", "temporal"], "Continuous data axis"⟩,
       ⟨"y_axis", true, ["numeric"], "Values to fill"⟩,
       ⟨"color", false, ["categorical"], "Series for stacking"⟩]
    supported_insights := [.trend, .total_count, .max, .min, .mean]
    min_columns := 2 }

/-- `self.chart_definitions`, in insertion order of `_initialize_definitions`. -/
def chartDefinitions : List ChartDefinition :=
  [barDefinition, lineDefinition, scatterDefinition, pieDefinition,
   histogramDefinition, boxDefinition, heatmapDefinition, areaDefinition]

/-- `self.chart_definitions.get(chart_type)`; the kind is embedded by its
string value, so unknown kinds yield `none`. -/
def get_chart_definition (kind : String) : Option ChartDefinition :=
  chartDefinitions.find? (fun d => d.chart_type == kind)

/-! ## Configuration validator (`validate_chart_configuration`) -/

/-- One entry of the column profile (`available_columns`): a dict
`{"name": ..., "type": ...}`. -/
structure Column where
  name : String
  type : String
deriving DecidableEq, Repr

structure InvalidTypeEntry where
  requirement : String
  expected : List String
  actual : String
  column : String
deriving DecidableEq, Repr

/-- The dict returned by `validate_chart_configuration`.  The unknown-kind
branch returns only `valid` and `error`; the normal branch returns the
remaining fields with `error` absent (`none`). -/
structure ValidationResult where
  valid : Bool
  error : Option String := none
  errors : List String := []
  warnings : List String := []
  missing_required : List String := []
  invalid_types : List InvalidTypeEntry := []
deriving DecidableEq, Repr

/-- `column_mappings.get(name)` on the mapping dict. -/
def lookupMapping : List (String × String) → String → Option String
  | [], _ => none
  | (k, v) :: rest, key => if k == key then some v else lookupMapping rest key

/-- `column_lookup = {col["name"]: col for col in available_columns}` followed
by `column_lookup[name]`: the *last* column with a given name wins. -/
def colLookup (cols : List Column) (name : String) : Option Column :=
  cols.foldl (fun acc c => if c.name == name then some c else acc) none

/-- Python truthiness of `column_mappings.get(...)`: `None` and `""` are
falsy. -/
def isTruthy : Option String → Bool
  | none => false
  | some s => !(s == "")

/-- The error/missing/invalid contributions of one requirement of the
validation loop body. -/
def checkRequirement (mappings : List (String × String)) (cols : List Column)
    (req : ColumnRequirement) :
    List String × List String × List InvalidTypeEntry :=
  let mapped := lookupMapping mappings req.name
  if req.required && !(isTruthy mapped) then
    (["Required column \x27" ++ req.name ++ "\x27 not specified"], [req.name], [])
  else
    match mapped with
    | none => ([], [], [])
    | some m =>
      if m == "" then ([], [], [])
      else
        match colLookup cols m with
        | none => ([], [], [])
        | some col =>
          let column_type := categorize_column_type col.type
          if !(req.data_types.contains "any") &&
              !(req.data_types.contains column_type) then
            (["Column \x27" ++ m ++ "\x27 for \x27" ++ req.name ++
                "\x27 should be " ++ String.intercalate "/" req.data_types ++
                ", but is " ++ column_type],
             [],
             [⟨req.name, req.data_types, column_type, m⟩])
          else ([], [], [])

/-- `len([v for v in column_mappings.values() if v])`. -/
def countProvided (mappings : List (String × String)) : Nat :=
  ((mappings.map Prod.snd).filter (fun v => !(v == ""))).length

/-- The known-kind branch of `validate_chart_configuration`. -/
def validateWithDefinition (defn : ChartDefinition)
    (mappings : List (String × String)) (cols : List Column) :
    ValidationResult :=
  let per := defn.column_requirements.map (checkRequirement mappings cols)
  let errs0 := (per.map (fun r => r.1)).flatten
  let missing := (per.map (fun r => r.2.1)).flatten
  let invalid := (per.map (fun r => r.2.2)).flatten
  let provided := countProvided mappings
  let errs :=
    if provided < defn.min_columns then
      errs0 ++ ["Chart requires at least " ++ toString defn.min_columns ++
        " columns, but only " ++ toString provided ++ " provided"]
    else errs0
  { valid := errs.isEmpty
    error := none
    errors := errs
    warnings := []
    missing_required := missing
    invalid_types := invalid }

/-- `ChartTypeRegistry.validate_chart_configuration`. -/
def validate_chart_configuration (kind : String)
    (mappings : List (String × String)) (cols : List Column) :
    ValidationResult :=
  match get_chart_definition kind with
  | none => { valid := false, error := some ("Unknown chart type: " ++ kind) }
  | some defn => validateWithDefinition defn mappings cols

/-! ## Suggestion scorer (`ChartTypeRegistry.suggest_chart_types`) -/

/-- The names of profile columns whose classified category is `t`
(`column_types[t]` in the source). -/
def columnsOfType (cols : List Column) (t : String) : List String :=
  (cols.filter (fun c => categorize_column_type c.type == t)).map (fun c => c.name)

/-- The inner loop computing `available_for_req` for one requirement:
accumulate the per-category column counts, with an early `break` to the
total column count on the `"any"` wildcard. -/
def availableForReq (cols : List Column) : List String → Nat → Nat
  | [], acc => acc
  | t :: ts, acc =>
    if t == "any" then cols.length
    else availableForReq cols ts (acc + (columnsOfType cols t).length)

/-- The `can_satisfy`/base-score loop over the requirements: `none` when some
required role has no available column (the kind is dropped), otherwise the
sum of `min(available_for_req, 3)` over required roles. -/
def requiredBaseScore (cols : List Column) : List ColumnRequirement → Option Nat
  | [] => some 0
  | req :: rest =>
    if req.required then
      let a := availableForReq cols req.data_types 0
      if a == 0 then none
      else
        match requiredBaseScore cols rest with
        | none => none
        | some s => some (min a 3 + s)
    else requiredBaseScore cols rest

/-- One entry of the returned suggestion list. -/
structure Suggestion where
  chart_type : String
  name : String
  score : Nat
  description : String
  reason : String
  use_cases : List String
deriving DecidableEq, Repr

/-- The bonus-point block of `suggest_chart_types`: returns the added bonus
and the collected `reason_parts`, in source order. -/
def bonusFor (kind : String) (numeric_count categorical_count temporal_count : Nat) :
    Nat × List String :=
  let acc : Nat × List String := (0, [])
  let acc :=
    if kind == "scatter" && decide (2 ≤ numeric_count) then
      (acc.1 + 2, acc.2 ++ ["good for exploring relationships between " ++
        toString numeric_count ++ " numeric columns"])
    else acc
  let acc :=
    if kind == "line" && decide (0 < temporal_count) && decide (0 < numeric_count) then
      (acc.1 + 3, acc.2 ++ ["excellent for time-based trends"])
    else acc
  let acc :=
    if kind == "bar" && decide (0 < categorical_count) && decide (0 < numeric_count) then
      (acc.1 + 2, acc.2 ++ ["ideal for comparing categories"])
    else acc
  let acc :=
    if kind == "pie" && decide (0 < categorical_count) && decide (0 < numeric_count) then
      (acc.1 + 1, acc.2 ++ ["shows proportions well"])
    else acc
  let acc :=
    if kind == "histogram" && decide (0 < numeric_count) then
      (acc.1 + 2, acc.2 ++ ["great for understanding data distribution"])
    else acc
  acc

/-- The loop body of `suggest_chart_types` for one chart definition:
`none` when the kind is unsatisfiable or scores 0, otherwise the appended
suggestion entry. -/
def suggestionFor (cols : List Column) (defn : ChartDefinition) :
    Option Suggestion :=
  match requiredBaseScore cols defn.column_requirements with
  | none => none
  | some base =>
    let numeric_count := (columnsOfType cols "numeric").length
    let categorical_count := (columnsOfType cols "categorical").length
    let temporal_count := (columnsOfType cols "temporal").length
    let bonus := bonusFor defn.chart_type numeric_count categorical_count temporal_count
    let score := base + bonus.1
    if 0 < score then
      some { chart_type := defn.chart_type
             name := defn.name
             score := score
             description := defn.description
             reason := if bonus.2.isEmpty then defn.description
               else String.intercalate "; " bonus.2
             use_cases := defn.use_cases.take 2 }
    else none

/-- The suggestion list before sorting, in catalog iteration order. -/
def rawSuggestions (cols : List Column) : List Suggestion :=
  chartDefinitions.filterMap (suggestionFor cols)

/-- Stable descending insertion for `Suggestion.score`: the new element goes
after every element with a score `≥` its own. -/
def insertDesc (x : Suggestion) : List Suggestion → List Suggestion
  | [] => [x]
  | y :: ys => if y.score < x.score then x :: y :: ys else y :: insertDesc x ys

/-- CPython's `list.sort(key=score, reverse=True)` is a stable sort by
descending key; `sortDesc` realizes exactly that semantics. -/
def sortDesc (l : List Suggestion) : List Suggestion :=
  l.foldl (fun acc x => insertDesc x acc) []

/-- `ChartTypeRegistry.suggest_chart_types`. -/
def suggest_chart_types (cols : List Column) : List Suggestion :=
  (sortDesc (rawSuggestions cols)).take 5

/-- Position of a kind in catalog definition order (`8` for unknown kinds). -/
def catalogIdx (kind : String) : Nat :=
  if kind == "bar" then 0
  else if kind == "line" then 1
  else if kind == "scatter" then 2
  else if kind == "pie" then 3
  else if kind == "histogram" then 4
  else if kind == "box" then 5
  else if kind == "heatmap" then 6
  else if kind == "area" then 7
  else 8

/-! ## Validator lemmas -/

theorem checkRequirement_fst_nil_iff (mappings : List (String × String))
    (cols : List Column) (req : ColumnRequirement) :
    (checkRequirement mappings cols req).1 = [] ↔
      ((req.required = true → isTruthy (lookupMapping mappings req.name) = true) ∧
       (∀ c, lookupMapping mappings req.name = some c → c ≠ "" →
         ∀ col, colLookup cols c = some col →
           "any" ∉ req.data_types →
           categorize_column_type col.type ∈ req.data_types)) := by
  unfold checkRequirement
  rcases hm : lookupMapping mappings req.name with _ | m
  · by_cases hr : req.required <;> simp [hr, isTruthy]
  · by_cases he : m = ""
    · subst he
      by_cases hr : req.required <;> simp [hr, isTruthy]
    · have ht : isTruthy (some m) = true := by simp [isTruthy, he]
      rcases hc : colLookup cols m with _ | col
      · by_cases hr : req.required <;> simp [hr, ht, he, hc]
      · by_cases hr : req.required <;>
          by_cases ha : "any" ∈ req.data_types <;>
          by_cases hk : categorize_column_type col.type ∈ req.data_types <;>
          simp [hr, ht, he, hc, ha, hk]

theorem validateWithDefinition_valid_iff (defn : ChartDefinition)
    (mappings : List (String × String)) (cols : List Column) :
    (validateWithDefinition defn mappings cols).valid = true ↔
      ((∀ req ∈ defn.column_requirements, req.required = true →
          isTruthy (lookupMapping mappings req.name) = true) ∧
       (∀ req ∈ defn.column_requirements, ∀ c,
          lookupMapping mappings req.name = some c → c ≠ "" →
          ∀ col, colLookup cols c = some col → "any" ∉ req.data_types →
            categorize_column_type col.type ∈ req.data_types) ∧
       defn.min_columns ≤ countProvided mappings) := by
  unfold validateWithDefinition
  dsimp only
  by_cases hp : countProvided mappings < defn.min_columns
  · rw [if_pos hp]
    simp only [List.isEmpty_iff, List.append_eq_nil, List.map_map]
    constructor
    · rintro ⟨-, h⟩; cases h
    · rintro ⟨-, -, h⟩; omega
  · rw [if_neg hp]
    have hge : defn.min_columns ≤ countProvided mappings := Nat.not_lt.mp hp
    simp [List.isEmpty_iff, List.flatten_eq_nil_iff, List.map_map,
      checkRequirement_fst_nil_iff, hge, forall_and, Function.comp]

/-! ## Claims C1, C2, C10 -/

/-- Formalization of claim C1's validity condition, taken from the claim's
words (not from the source): every required role is mapped to a column
present in the profile whose category is allowed (skipped for `Any`), and
the number of roles mapped to a non-empty column name is at least
`min_columns`. -/
def claimC1Valid (kind : String) (mappings : List (String × String))
    (cols : List Column) : Bool :=
  match get_chart_definition kind with
  | none => false
  | some defn =>
    (defn.column_requirements.all fun req =>
      !req.required ||
        (match lookupMapping mappings req.name with
         | none => false
         | some c =>
           !(c == "") &&
           cols.any fun col =>
             col.name == c &&
               (req.data_types.contains "any" ||
                req.data_types.contains (categorize_column_type col.type)))) &&
    decide (defn.min_columns ≤
      (defn.column_requirements.filter
        (fun req => isTruthy (lookupMapping mappings req.name))).length)

/-- C1 is false on the code: a bar-chart mapping whose `x_axis` names a
column absent from the profile validates as `valid = true`, although the
claim's condition (presence in the profile) fails.  The validator never
checks that a mapped column exists. -/
theorem claim_C1_counterexample :
    (validate_chart_configuration "bar"
        [("x_axis", "ghost"), ("y_axis", "sales")]
        [⟨"sales", "DOUBLE"⟩]).valid = true ∧
    claimC1Valid "bar" [("x_axis", "ghost"), ("y_axis", "sales")]
        [⟨"sales", "DOUBLE"⟩] = false := by
  exact ⟨rfl, rfl⟩

/-- C1 amended: for a known kind, `validate` returns `valid = true` iff
(a) every required role is mapped to a non-empty column name, (b) every
role mapped to a non-empty name that is *present* in the profile has its
column's category in the role's allowed set (skipped when the set contains
`any`; columns absent from the profile pass unchecked), and (c) the number
of mapping entries with a non-empty value is at least `min_columns`. -/
theorem claim_C1_amended (kind : String) (defn : ChartDefinition)
    (mappings : List (String × String)) (cols : List Column)
    (h : get_chart_definition kind = some defn) :
    (validate_chart_configuration kind mappings cols).valid = true ↔
      ((∀ req ∈ defn.column_requirements, req.required = true →
          isTruthy (lookupMapping mappings req.name) = true) ∧
       (∀ req ∈ defn.column_requirements, ∀ c,
          lookupMapping mappings req.name = some c → c ≠ "" →
          ∀ col, colLookup cols c = some col → "any" ∉ req.data_types →
            categorize_column_type col.type ∈ req.data_types) ∧
       defn.min_columns ≤ countProvided mappings) := by
  unfold validate_chart_configuration
  rw [h]
  exact validateWithDefinition_valid_iff defn mappings cols

theorem claim_C1_amended_witness :
    2 ≤ countProvided [("category", "region"), ("values", "sales")] :=
  ((claim_C1_amended "pie" pieDefinition
      [("category", "region"), ("values", "sales")]
      [⟨"sales", "DOUBLE"⟩, ⟨"region", "VARCHAR"⟩] rfl).mp rfl).2.2

set_option maxRecDepth 4000 in
theorem get_chart_definition_isSome_iff (kind : String) :
    (get_chart_definition kind).isSome = true ↔
      kind ∈ ["bar", "line", "scatter", "pie", "histogram", "box",
        "heatmap", "area"] := by
  unfold get_chart_definition chartDefinitions
  rw [List.find?_isSome]
  simp only [List.mem_cons, List.not_mem_nil, or_false, exists_eq_or_imp,
    exists_eq_left, beq_iff_eq]
  simp [barDefinition, lineDefinition, scatterDefinition,
    pieDefinition, histogramDefinition, boxDefinition, heatmapDefinition,
    areaDefinition, eq_comm]

/-- C2 is false on the code: for a kind outside the 8 variants,
`validate_chart_configuration` does not raise — it *returns* a result dict
`{"valid": False, "error": "Unknown chart type: ..."}`. -/
theorem claim_C2_counterexample :
    validate_chart_configuration "spider" [] [] =
      { valid := false, error := some "Unknown chart type: spider" } := rfl

/-- C2 amended: a kind outside the 8 variants yields a *returned*
`ValidationResult` with `valid = false` and an "Unknown chart type" error
message (no exception); for each of the 8 kinds the function is total and
returns a result whose `error` field is absent. -/
theorem claim_C2_amended (kind : String) (mappings : List (String × String))
    (cols : List Column) :
    (kind ∉ ["bar", "line", "scatter", "pie", "histogram", "box",
        "heatmap", "area"] →
      validate_chart_configuration kind mappings cols =
        { valid := false, error := some ("Unknown chart type: " ++ kind) }) ∧
    (kind ∈ ["bar", "line", "scatter", "pie", "histogram", "box",
        "heatmap", "area"] →
      (validate_chart_configuration kind mappings cols).error = none) := by
  constructor
  · intro hk
    have hnone : get_chart_definition kind = none := by
      cases hgd : get_chart_definition kind with
      | none => rfl
      | some d =>
        exact absurd ((get_chart_definition_isSome_iff kind).mp
          (by simp [hgd])) hk
    unfold validate_chart_configuration
    rw [hnone]
  · intro hk
    have hsome : (get_chart_definition kind).isSome = true :=
      (get_chart_definition_isSome_iff kind).mpr hk
    obtain ⟨d, hd⟩ := Option.isSome_iff_exists.mp hsome
    unfold validate_chart_configuration
    rw [hd]
    rfl

theorem claim_C2_witness :
    validate_chart_configuration "spider2" [] [] =
      { valid := false, error := some "Unknown chart type: spider2" } ∧
    (validate_chart_configuration "heatmap" [] []).error = none :=
  ⟨(claim_C2_amended "spider2" [] []).1 (by decide),
   (claim_C2_amended "heatmap" [] []).2 (by decide)⟩

/-- C10: for the 8 supported kinds (indeed for every kind), no code path of
the validator ever appends a warning, so `warnings = []` is an invariant of
every validation output. -/
theorem claim_C10 (kind : String) (mappings : List (String × String))
    (cols : List Column)
    (_h : kind ∈ ["bar", "line", "scatter", "pie", "histogram", "box",
        "heatmap", "area"]) :
    (validate_chart_configuration kind mappings cols).warnings = [] := by
  unfold validate_chart_configuration
  cases hgd : get_chart_definition kind with
  | none => rfl
  | some d => rfl

theorem claim_C10_witness :
    (validate_chart_configuration "bar" [] []).warnings = [] :=
  claim_C10 "bar" [] [] (by decide)

/-! ## Claim C6: ordering of the suggestion list -/

/-- The ordering realized by the suggestion sort: strictly greater score, or
equal score and strictly earlier catalog position. -/
def suggLE (a b : Suggestion) : Prop :=
  b.score < a.score ∨
    (a.score = b.score ∧ catalogIdx a.chart_type < catalogIdx b.chart_type)

theorem mem_insertDesc {z x : Suggestion} {l : List Suggestion}
    (h : z ∈ insertDesc x l) : z = x ∨ z ∈ l := by
  induction l with
  | nil => simpa [insertDesc] using h
  | cons y ys ih =>
    by_cases hs : y.score < x.score
    · simpa [insertDesc, hs, or_assoc] using h
    · rw [insertDesc, if_neg hs] at h
      rcases List.mem_cons.mp h with hz | hz
      · exact Or.inr (hz ▸ List.mem_cons_self y ys)
      · rcases ih hz with hz' | hz'
        · exact Or.inl hz'
        · exact Or.inr (List.mem_cons_of_mem y hz')

theorem pairwise_insertDesc {x : Suggestion} {l : List Suggestion}
    (hl : l.Pairwise suggLE)
    (hidx : ∀ y ∈ l, catalogIdx y.chart_type < catalogIdx x.chart_type) :
    (insertDesc x l).Pairwise suggLE := by
  induction l with
  | nil => simp [insertDesc, List.pairwise_singleton]
  | cons y ys ih =>
    rcases List.pairwise_cons.mp hl with ⟨hy, hys⟩
    by_cases hs : y.score < x.score
    · rw [insertDesc, if_pos hs]
      refine List.pairwise_cons.mpr ⟨?_, hl⟩
      intro z hz
      rcases List.mem_cons.mp hz with hzy | hz'
      · exact hzy ▸ Or.inl hs
      · rcases hy z hz' with h1 | h2
        · exact Or.inl (lt_trans h1 hs)
        · exact Or.inl (h2.1 ▸ hs)
    · rw [insertDesc, if_neg hs]
      refine List.pairwise_cons.mpr ⟨?_, ih hys (fun y' hy' =>
        hidx y' (List.mem_cons_of_mem y hy'))⟩
      intro z hz
      rcases mem_insertDesc hz with hzx | hz'
      · subst hzx
        rcases Nat.lt_or_ge z.score y.score with hlt | hge
        · exact Or.inl hlt
        · have he : z.score = y.score := Nat.le_antisymm (Nat.not_lt.mp hs) hge
          exact Or.inr ⟨he.symm, hidx y (List.mem_cons_self y ys)⟩
      · exact hy z hz'

theorem pairwise_foldl_insertDesc (l : List Suggestion) :
    ∀ acc : List Suggestion,
      l.Pairwise (fun a b =>
        catalogIdx a.chart_type < catalogIdx b.chart_type) →
      acc.Pairwise suggLE →
      (∀ y ∈ acc, ∀ x ∈ l,
        catalogIdx y.chart_type < catalogIdx x.chart_type) →
      (l.foldl (fun acc x => insertDesc x acc) acc).Pairwise suggLE := by
  induction l with
  | nil => intro acc _ hacc _; simpa using hacc
  | cons x xs ih =>
    intro acc hl hacc hcross
    rcases List.pairwise_cons.mp hl with ⟨hx, hxs⟩
    rw [List.foldl_cons]
    refine ih (insertDesc x acc) hxs
      (pairwise_insertDesc hacc
        (fun y hy => hcross y hy x (List.mem_cons_self x xs))) ?_
    intro y hy x' hx'
    rcases mem_insertDesc hy with hyx | hy'
    · exact hyx ▸ hx x' hx'
    · exact hcross y hy' x' (List.mem_cons_of_mem x hx')

theorem pairwise_sortDesc (l : List Suggestion)
    (hl : l.Pairwise (fun a b =>
      catalogIdx a.chart_type < catalogIdx b.chart_type)) :
    (sortDesc l).Pairwise suggLE :=
  pairwise_foldl_insertDesc l [] hl List.Pairwise.nil (by simp)

theorem suggestionFor_chart_type {cols : List Column}
    {defn : ChartDefinition} {s : Suggestion}
    (h : suggestionFor cols defn = some s) : s.chart_type = defn.chart_type := by
  unfold suggestionFor at h
  rcases hb : requiredBaseScore cols defn.column_requirements with _ | base
  · rw [hb] at h; cases h
  · rw [hb] at h
    dsimp only at h
    by_cases hsc : 0 < base + (bonusFor defn.chart_type
        (columnsOfType cols "numeric").length
        (columnsOfType cols "categorical").length
        (columnsOfType cols "temporal").length).1
    · rw [if_pos hsc] at h
      cases h
      rfl
    · rw [if_neg hsc] at h; cases h

theorem pairwise_filterMap_suggestionFor (cols : List Column) :
    ∀ ds : List ChartDefinition,
      ds.Pairwise (fun d e =>
        catalogIdx d.chart_type < catalogIdx e.chart_type) →
      (ds.filterMap (suggestionFor cols)).Pairwise (fun a b =>
        catalogIdx a.chart_type < catalogIdx b.chart_type) := by
  intro ds
  induction ds with
  | nil => intro _; simp
  | cons d ds ih =>
    intro hcat
    rcases List.pairwise_cons.mp hcat with ⟨hd, hds⟩
    rw [List.filterMap_cons]
    rcases hs : suggestionFor cols d with _ | s
    · exact ih hds
    · refine List.pairwise_cons.mpr ⟨?_, ih hds⟩
      intro s' hs'
      rcases List.mem_filterMap.mp hs' with ⟨d', hd', hsd'⟩
      rw [suggestionFor_chart_type hs, suggestionFor_chart_type hsd']
      exact hd d' hd'

theorem pairwise_rawSuggestions (cols : List Column) :
    (rawSuggestions cols).Pairwise (fun a b =>
      catalogIdx a.chart_type < catalogIdx b.chart_type) := by
  apply pairwise_filterMap_suggestionFor
  decide

/-- C6: for every column profile, the suggestion list is sorted by
non-increasing score, entries with equal scores appear in catalog
definition order (bar, line, scatter, pie, histogram, box, heatmap, area),
and the list has at most 5 entries. -/
theorem claim_C6 (cols : List Column) :
    (suggest_chart_types cols).Pairwise (fun a b => b.score ≤ a.score) ∧
    (suggest_chart_types cols).Pairwise (fun a b => a.score = b.score →
      catalogIdx a.chart_type < catalogIdx b.chart_type) ∧
    (suggest_chart_types cols).length ≤ 5 := by
  have hs : (sortDesc (rawSuggestions cols)).Pairwise suggLE :=
    pairwise_sortDesc _ (pairwise_rawSuggestions cols)
  have ht : (suggest_chart_types cols).Pairwise suggLE :=
    hs.sublist (List.take_sublist 5 _)
  refine ⟨ht.imp ?_, ht.imp ?_, ?_⟩
  · rintro a b (h1 | h2)
    · exact Nat.le_of_lt h1
    · exact Nat.le_of_eq h2.1.symm
  · rintro a b (h1 | h2) he
    · exact absurd he (Nat.ne_of_gt h1)
    · exact h2.2
  · exact List.length_take_le 5 _

/-- The end-to-end scenario profile of claim C7. -/
def demoProfile : List Column :=
  [⟨"sales", "DOUBLE"⟩, ⟨"region", "VARCHAR"⟩, ⟨"date", "DATE"⟩]

/-- C7: on the profile `[sales: DOUBLE, region: VARCHAR, date: DATE]` the
scorer (base `min(available, 3)` per required role plus the bonus table
Line +3 / Bar +2 / Pie +1 / Scatter +2 / Histogram +2) yields the ranking
line (6), bar (4), heatmap (4), pie (3), histogram (3): Line is strictly
above Pie and Bar is among the top 3. -/
theorem claim_C7 :
    ((suggest_chart_types demoProfile).map (fun s => s.chart_type) =
      ["line", "bar", "heatmap", "pie", "histogram"]) ∧
    ((suggest_chart_types demoProfile).map (fun s => s.score) =
      [6, 4, 4, 3, 3]) ∧
    ((suggest_chart_types demoProfile).map (fun s => s.chart_type)).indexOf
        "line" <
      ((suggest_chart_types demoProfile).map (fun s => s.chart_type)).indexOf
        "pie" ∧
    "bar" ∈ ((suggest_chart_types demoProfile).take 3).map
      (fun s => s.chart_type) := by
  refine ⟨by decide, by decide, by decide, by decide⟩

/-! ## SQL query builder (`database/queries.py`, class `QueryBuilder`) -/

/-- `self.safe_operators`. -/
def safeOperators : List String :=
  ["=", "!=", ">", "<", ">=", "<=", "IN", "LIKE", "NOT IN", "NOT LIKE"]

/-- `self.safe_functions`. -/
def safeFunctions : List String :=
  ["COUNT", "SUM", "AVG", "MIN", "MAX", "MEDIAN", "STDDEV", "VARIANCE",
   "DISTINCT", "ROUND", "UPPER", "LOWER"]

/-- `column_name.replace(chr(34), chr(34)*2)`: double every double quote. -/
def escQuotes : List Char → List Char
  | [] => []
  | c :: cs => if c == '"' then '"' :: '"' :: escQuotes cs else c :: escQuotes cs

/-- `QueryBuilder._sanitize_column_name`: wrap in quoted-identifier syntax
with internal quotes doubled. -/
def sanitize_column_name (s : String) : String :=
  "\"" ++ (⟨escQuotes s.data⟩ : String) ++ "\""

def isIdentStart (c : Char) : Bool :=
  ('a' ≤ c && c ≤ 'z') || ('A' ≤ c && c ≤ 'Z') || c == '_'

def isIdentChar (c : Char) : Bool :=
  isIdentStart c || ('0' ≤ c && c ≤ '9')

/-- Membership in the regular language `[a-zA-Z_][a-zA-Z0-9_]*` (the whole
word must match). -/
def matchesIdent : List Char → Bool
  | [] => false
  | c :: cs => isIdentStart c && cs.all isIdentChar

/-- Python's `re.match(r"^[a-zA-Z_][a-zA-Z0-9_]*$", s)` as a Boolean: `$`
also matches just before a single newline at the very end of the string, so
a language word followed by one trailing newline is accepted as well. -/
def pyFullMatch (s : String) : Bool :=
  matchesIdent s.data ||
    (s.data.getLast? == some '\n' && matchesIdent s.data.dropLast)

/-- `QueryBuilder._sanitize_table_name`: `raise ValueError` when the
pattern does not match, otherwise the table name is returned unquoted and
unchanged. -/
def sanitize_table_name (s : String) : Except String String :=
  if pyFullMatch s then Except.ok s
  else Except.error ("Invalid table name: " ++ s)

/-- The `value` carried by a filter (`Any` in the source); the cases the
query builder distinguishes are strings, numbers and lists of values
(list elements are rendered with `str`, so plain strings model them). -/
inductive FilterValue where
  | str (s : String)
  | intv (n : Int)
  | listv (vs : List String)
deriving DecidableEq, Repr

structure QueryFilter where
  column : String
  operator : String
  value : FilterValue
  logical_operator : String := "AND"
deriving DecidableEq, Repr

structure QueryConfig where
  table_name : String
  columns : Option (List String) := none
  filters : Option (List QueryFilter) := none
  group_by : Option (List String) := none
  order_by : Option (List String) := none
  limit : Option Int := none
  aggregations : Option (List (String × String)) := none
deriving Repr

/-- Python `str()` of a filter value (used by `f"...{value}..."`). -/
def pyStrOf : FilterValue → String
  | .str s => s
  | .intv n => toString n
  | .listv vs =>
    "[" ++ String.intercalate ", "
      (vs.map (fun v => "\x27" ++ v ++ "\x27")) ++ "]"

/-- `QueryBuilder._build_filter_condition`: empty string for an operator
outside the allow-list (dropped with a logged warning), otherwise the
rendered condition. -/
def build_filter_condition (f : QueryFilter) : String :=
  if !(safeOperators.contains f.operator) then ""
  else
    let safe_column := sanitize_column_name f.column
    if f.operator == "IN" || f.operator == "NOT IN" then
      match f.value with
      | .listv vs =>
        safe_column ++ " " ++ f.operator ++ " (" ++
          String.intercalate ", " (vs.map (fun v => "\x27" ++ v ++ "\x27")) ++ ")"
      | v => safe_column ++ " " ++ f.operator ++ " (\x27" ++ pyStrOf v ++ "\x27)"
    else if f.operator == "LIKE" || f.operator == "NOT LIKE" then
      safe_column ++ " " ++ f.operator ++ " \x27" ++ pyStrOf f.value ++ "\x27"
    else
      match f.value with
      | .str s => safe_column ++ " " ++ f.operator ++ " \x27" ++ s ++ "\x27"
      | v => safe_column ++ " " ++ f.operator ++ " " ++ pyStrOf v

/-- `sep.join(parts)`. -/
def sjoin (sep : String) : List String → String
  | [] => ""
  | [x] => x
  | x :: y :: rest => x ++ sep ++ sjoin sep (y :: rest)

/-- The `conditions` list: built conditions, empty ones skipped. -/
def conditionsOf (filters : List QueryFilter) : List String :=
  filters.filterMap fun f =>
    let c := build_filter_condition f
    if c == "" then none else some c

/-- The WHERE clause of `build_visualization_query`, verbatim: the list
`[f" {f.logical_operator} {cond}" for f, cond in zip(filters[1:], conditions[1:])]`
joined with the separator `f" {conditions[0]} "`, overridden to
`f"WHERE {conditions[0]}"` when there is exactly one condition. -/
def whereClauseOf (filters : List QueryFilter) : String :=
  match conditionsOf filters with
  | [] => ""
  | c0 :: rest =>
    if rest.isEmpty then "WHERE " ++ c0
    else
      let items := ((filters.drop 1).zip rest).map
        (fun fc => " " ++ fc.1.logical_operator ++ " " ++ fc.2)
      "WHERE " ++ sjoin (" " ++ c0 ++ " ") items

/-- The `select_parts` list: sanitized columns (or `*`), then the
allow-listed aggregation expressions. -/
def selectPartsOf (config : QueryConfig) : List String :=
  (match config.columns with
   | some (c :: cs) => (c :: cs).map sanitize_column_name
   | _ => ["*"]) ++
  (match config.aggregations with
   | some (a :: as0) =>
     (a :: as0).filterMap fun ca =>
       if safeFunctions.contains (strUpper ca.2) then
         some (strUpper ca.2 ++ "(" ++ sanitize_column_name ca.1 ++ ") as " ++
           strLower ca.2 ++ "_" ++ ca.1)
       else none
   | _ => [])

/-- `select_clause`. -/
def selectOf (config : QueryConfig) : String :=
  "SELECT " ++ sjoin ", " (selectPartsOf config)

/-- `where_clause` (empty when no filters were supplied). -/
def whereOf (config : QueryConfig) : String :=
  match config.filters with
  | some fs => whereClauseOf fs
  | none => ""

/-- `group_by_clause` (a falsy `group_by` yields the empty clause). -/
def groupByOf (config : QueryConfig) : String :=
  match config.group_by with
  | some (g :: gs) => "GROUP BY " ++ sjoin ", " ((g :: gs).map sanitize_column_name)
  | _ => ""

/-- `order_by_clause`. -/
def orderByOf (config : QueryConfig) : String :=
  match config.order_by with
  | some (o :: os) => "ORDER BY " ++ sjoin ", " ((o :: os).map sanitize_column_name)
  | _ => ""

/-- `limit_clause` (only a truthy positive integer limit is rendered). -/
def limitOf (config : QueryConfig) : String :=
  match config.limit with
  | some n => if 0 < n then "LIMIT " ++ toString n else ""
  | none => ""

/-- `query_parts`: the SELECT and FROM clauses followed by each non-empty
optional clause (a Python string is truthy iff it has a character). -/
def queryPartsOf (config : QueryConfig) (table : String) : List String :=
  [selectOf config, "FROM " ++ table] ++
  (if (whereOf config).data.isEmpty then [] else [whereOf config]) ++
  (if (groupByOf config).data.isEmpty then [] else [groupByOf config]) ++
  (if (orderByOf config).data.isEmpty then [] else [orderByOf config]) ++
  (if (limitOf config).data.isEmpty then [] else [limitOf config])

/-- The clause assembly of `build_visualization_query` after the table name
passed sanitization: `" ".join(query_parts)`. -/
def assembleQuery (config : QueryConfig) (table : String) : String :=
  sjoin " " (queryPartsOf config table)

/-- `QueryBuilder.build_visualization_query`; the only raising path is the
table-name gate, re-raised to the caller. -/
def build_visualization_query (config : QueryConfig) : Except String String :=
  match sanitize_table_name config.table_name with
  | Except.error e => Except.error e
  | Except.ok t => Except.ok (assembleQuery config t)

/-- `QueryBuilder.build_bar_chart_query`. -/
def build_bar_chart_query (table_name x_column y_column : String)
    (color_column : Option String) (filters : Option (List QueryFilter)) :
    Except String String :=
  let sumExpr := "SUM(" ++ y_column ++ ") as total_" ++ y_column
  let columns :=
    match color_column with
    | some c => [x_column, c, sumExpr]
    | none => [x_column, sumExpr]
  let group_by :=
    match color_column with
    | some c => [x_column, c]
    | none => [x_column]
  build_visualization_query
    { table_name := table_name, columns := some columns, filters := filters,
      group_by := some group_by,
      order_by := some ["total_" ++ y_column ++ " DESC"] }

/-- `QueryBuilder.build_line_chart_query`. -/
def build_line_chart_query (table_name x_column y_column : String)
    (color_column : Option String) (filters : Option (List QueryFilter)) :
    Except String String :=
  let columns :=
    match color_column with
    | some c => [x_column, y_column, c]
    | none => [x_column, y_column]
  let group_by :=
    match color_column with
    | some c => [x_column, c]
    | none => [x_column]
  build_visualization_query
    { table_name := table_name, columns := some columns, filters := filters,
      group_by := some group_by, order_by := some [x_column] }

/-- `QueryBuilder.build_pie_chart_query`. -/
def build_pie_chart_query (table_name category_column value_column : String)
    (filters : Option (List QueryFilter)) : Except String String :=
  build_visualization_query
    { table_name := table_name, columns := some [category_column],
      aggregations := some [(value_column, "SUM")], filters := filters,
      group_by := some [category_column],
      order_by := some ["sum_" ++ value_column ++ " DESC"] }

/-- `QueryBuilder.get_sample_data_query`. -/
def get_sample_data_query (table_name : String) (limit : Int) :
    Except String String :=
  match sanitize_table_name table_name with
  | Except.error e => Except.error e
  | Except.ok t =>
    Except.ok ("SELECT * FROM " ++ t ++ " LIMIT " ++ toString limit)

/-! ## Claim C3: the table-name gate -/

/-- Membership in the anchored regular language `[A-Za-z_][A-Za-z0-9_]*`,
stated declaratively (the claim's reading of the pattern). -/
def identProp (cs : List Char) : Prop :=
  ∃ c rest, cs = c :: rest ∧ isIdentStart c = true ∧
    ∀ d ∈ rest, isIdentChar d = true

theorem matchesIdent_iff (cs : List Char) :
    matchesIdent cs = true ↔ identProp cs := by
  cases cs with
  | nil =>
    simp only [matchesIdent, identProp]
    constructor
    · intro h; cases h
    · rintro ⟨c, rest, h, -, -⟩; cases h
  | cons c rest =>
    simp only [matchesIdent, Bool.and_eq_true, List.all_eq_true, identProp]
    constructor
    · rintro ⟨h1, h2⟩; exact ⟨c, rest, rfl, h1, h2⟩
    · rintro ⟨c', rest', heq, h1, h2⟩
      cases heq
      exact ⟨h1, h2⟩

/-- What CPython's `re.match(r"^[a-zA-Z_][a-zA-Z0-9_]*$", s)` accepts: a
language word, or a language word followed by one final newline (the `$`
quirk). -/
def pyAcceptsTable (s : String) : Prop :=
  identProp s.data ∨ ∃ t, s.data = t ++ ['\n'] ∧ identProp t

theorem pyFullMatch_iff (s : String) :
    pyFullMatch s = true ↔ pyAcceptsTable s := by
  unfold pyFullMatch pyAcceptsTable
  rw [Bool.or_eq_true, matchesIdent_iff]
  apply or_congr Iff.rfl
  rw [Bool.and_eq_true, beq_iff_eq, matchesIdent_iff]
  constructor
  · rintro ⟨hl, hident⟩
    have hne : s.data ≠ [] := by
      intro h; rw [h] at hl; cases hl
    have hsplit : s.data.dropLast ++ ['\n'] = s.data := by
      have h2 := List.dropLast_append_getLast hne
      rwa [(List.getLast_eq_iff_getLast?_eq_some hne).mpr hl] at h2
    exact ⟨s.data.dropLast, hsplit.symm, hident⟩
  · rintro ⟨t, ht, hident⟩
    have hl : s.data.getLast? = some '\n' := by
      rw [ht, List.getLast?_concat]
    have hdl : s.data.dropLast = t := by
      rw [ht, List.dropLast_concat]
    exact ⟨hl, hdl ▸ hident⟩

/-- C3 is false on the code: the name `"users\n"` is outside the language
of `^[A-Za-z_][A-Za-z0-9_]*$`, yet sanitization accepts it and returns it
unchanged (Python's `$` also matches before one trailing newline), instead
of raising. -/
theorem claim_C3_counterexample :
    sanitize_table_name "users\n" = Except.ok "users\n" ∧
    matchesIdent "users\n".data = false := ⟨rfl, rfl⟩

/-- C3 amended: sanitization accepts exactly the language words *plus*
words followed by a single trailing newline (CPython `$` semantics),
returning the name unquoted and unchanged; every other name raises the
invalid-identifier error.  Every query-building function accepts `"users"`
and rejects `"users; DROP TABLE users"` with that error. -/
theorem claim_C3_amended :
    (∀ s, sanitize_table_name s = Except.ok s ↔ pyAcceptsTable s) ∧
    (∀ s, ¬ pyAcceptsTable s →
      sanitize_table_name s = Except.error ("Invalid table name: " ++ s)) ∧
    build_visualization_query { table_name := "users" } =
      Except.ok "SELECT * FROM users" ∧
    build_visualization_query { table_name := "users; DROP TABLE users" } =
      Except.error "Invalid table name: users; DROP TABLE users" ∧
    (build_bar_chart_query "users" "a" "b" none none).isOk = true ∧
    build_bar_chart_query "users; DROP TABLE users" "a" "b" none none =
      Except.error "Invalid table name: users; DROP TABLE users" ∧
    (build_line_chart_query "users" "a" "b" none none).isOk = true ∧
    build_line_chart_query "users; DROP TABLE users" "a" "b" none none =
      Except.error "Invalid table name: users; DROP TABLE users" ∧
    (build_pie_chart_query "users" "a" "b" none).isOk = true ∧
    build_pie_chart_query "users; DROP TABLE users" "a" "b" none =
      Except.error "Invalid table name: users; DROP TABLE users" ∧
    get_sample_data_query "users" 1000 =
      Except.ok "SELECT * FROM users LIMIT 1000" ∧
    get_sample_data_query "users; DROP TABLE users" 1000 =
      Except.error "Invalid table name: users; DROP TABLE users" := by
  refine ⟨?_, ?_, rfl, rfl, rfl, rfl, rfl, rfl, rfl, rfl, rfl, rfl⟩
  · intro s
    unfold sanitize_table_name
    by_cases h : pyFullMatch s = true
    · rw [if_pos h]
      simp [(pyFullMatch_iff s).mp h]
    · rw [if_neg h]
      constructor
      · intro he; cases he
      · intro hp
        exact absurd ((pyFullMatch_iff s).mpr hp) h
  · intro s hp
    unfold sanitize_table_name
    rw [if_neg]
    intro h
    exact hp ((pyFullMatch_iff s).mp h)

theorem claim_C3_amended_witness : pyAcceptsTable "users" :=
  (claim_C3_amended.1 "users").mp rfl

/-! ## Claims C4 and C9: the WHERE-clause join -/

theorem mem_sjoin_sub {x : String} (sep : String) {l : List String}
    (h : x ∈ l) : x.data <:+: (sjoin sep l).data := by
  induction l with
  | nil => cases h
  | cons y ys ih =>
    cases ys with
    | nil =>
      rcases List.mem_cons.mp h with rfl | h'
      · exact List.infix_refl _
      · cases h'
    | cons z zs =>
      rcases List.mem_cons.mp h with rfl | h'
      · show x.data <:+: ((x ++ sep) ++ sjoin sep (z :: zs)).data
        rw [String.data_append, String.data_append, List.append_assoc]
        exact (List.prefix_append x.data _).isInfix
      · refine (ih h').trans ?_
        show (sjoin sep (z :: zs)).data <:+: ((y ++ sep) ++ sjoin sep (z :: zs)).data
        rw [String.data_append]
        exact (List.suffix_append _ _).isInfix

theorem sep_sjoin_sub (sep : String) {l : List String} (h : 2 ≤ l.length) :
    sep.data <:+: (sjoin sep l).data := by
  match l, h with
  | x :: y :: rest, _ =>
    show sep.data <:+: ((x ++ sep) ++ sjoin sep (y :: rest)).data
    rw [String.data_append, String.data_append, List.append_assoc]
    exact ⟨x.data, (sjoin sep (y :: rest)).data, by rw [List.append_assoc]⟩

theorem infix_append_left (a : String) {x : List Char} {b : String}
    (h : x <:+: b.data) : x <:+: (a ++ b).data := by
  rw [String.data_append]
  exact h.trans (List.suffix_append _ _).isInfix

theorem suffix_append_sub (a : String) (b : String) :
    b.data <:+: (a ++ b).data := by
  rw [String.data_append]
  exact (List.suffix_append _ _).isInfix

theorem conditionsOf_length_le (fs : List QueryFilter) :
    (conditionsOf fs).length ≤ fs.length :=
  List.length_filterMap_le _ _

/-- A clause that appears among `query_parts` is a substring of the
assembled query. -/
theorem part_infix_assembleQuery {config : QueryConfig} {table : String}
    {p : String} (h : p ∈ queryPartsOf config table) :
    p.data <:+: (assembleQuery config table).data :=
  mem_sjoin_sub " " h

/-- A non-empty WHERE clause is one of the joined `query_parts`. -/
theorem whereOf_mem_queryParts {config : QueryConfig} (table : String)
    (h : whereOf config ≠ "") :
    whereOf config ∈ queryPartsOf config table := by
  unfold queryPartsOf
  have hd : (whereOf config).data.isEmpty = false := by
    rcases he : (whereOf config).data with _ | _
    · exact absurd (String.ext (he.trans rfl)) h
    · rfl
  rw [hd]
  simp

/-- The tail of the condition after the sanitized column, per branch of
`_build_filter_condition` (used to factor the rendered condition). -/
def filterConditionRest (f : QueryFilter) : String :=
  if f.operator == "IN" || f.operator == "NOT IN" then
    match f.value with
    | .listv vs =>
      " " ++ f.operator ++ " (" ++
        String.intercalate ", " (vs.map (fun v => "\x27" ++ v ++ "\x27")) ++ ")"
    | v => " " ++ f.operator ++ " (\x27" ++ pyStrOf v ++ "\x27)"
  else if f.operator == "LIKE" || f.operator == "NOT LIKE" then
    " " ++ f.operator ++ " \x27" ++ pyStrOf f.value ++ "\x27"
  else
    match f.value with
    | .str s => " " ++ f.operator ++ " \x27" ++ s ++ "\x27"
    | v => " " ++ f.operator ++ " " ++ pyStrOf v

theorem build_filter_condition_safe (f : QueryFilter)
    (h : safeOperators.contains f.operator = true) :
    build_filter_condition f =
      sanitize_column_name f.column ++ filterConditionRest f := by
  unfold build_filter_condition filterConditionRest
  rw [h]
  simp only [Bool.not_true, Bool.false_eq_true, if_false]
  split
  · split <;> simp [String.append_assoc]
  · split
    · simp [String.append_assoc]
    · split <;> simp [String.append_assoc]

theorem build_filter_condition_safe_ne (f : QueryFilter)
    (h : safeOperators.contains f.operator = true) :
    build_filter_condition f ≠ "" := by
  rw [build_filter_condition_safe f h]
  intro he
  have hd := congrArg String.data he
  rw [String.data_append] at hd
  simp [sanitize_column_name, String.data_append] at hd

theorem exists_zip_pair {α β : Type} :
    ∀ (r : List β) (l : List α), r.length ≤ l.length → ∀ c ∈ r,
      ∃ a, (a, c) ∈ l.zip r := by
  intro r
  induction r with
  | nil => intro l _ c hc; cases hc
  | cons b bs ih =>
    intro l hlen c hc
    cases l with
    | nil => simp at hlen
    | cons a as =>
      rcases List.mem_cons.mp hc with rfl | hc'
      · exact ⟨a, by simp⟩
      · obtain ⟨a', ha'⟩ := ih as (by simpa using hlen) c hc'
        exact ⟨a', by simp [ha']⟩

/-- Every condition other than the first is a substring of the WHERE
clause: it appears inside its own `" {logical_operator} {cond}"` item. -/
theorem cond_tail_infix_whereClause (fs : List QueryFilter) {c : String}
    (hc : c ∈ (conditionsOf fs).drop 1) :
    c.data <:+: (whereClauseOf fs).data := by
  rcases hcs : conditionsOf fs with _ | ⟨c0, rest⟩
  · rw [hcs] at hc; cases hc
  · rw [hcs] at hc
    simp only [List.drop_succ_cons, List.drop_zero] at hc
    cases rest with
    | nil => cases hc
    | cons r rs =>
      have hlenle := conditionsOf_length_le fs
      rw [hcs] at hlenle
      have hlen : (r :: rs).length ≤ (fs.drop 1).length := by
        simp only [List.length_cons, List.length_drop] at hlenle ⊢
        omega
      obtain ⟨f, hf⟩ := exists_zip_pair (r :: rs) (fs.drop 1) hlen c hc
      unfold whereClauseOf
      rw [hcs]
      dsimp only
      rw [if_neg (by simp)]
      apply infix_append_left
      have hmem : (" " ++ f.logical_operator ++ " " ++ c) ∈
          ((fs.drop 1).zip (r :: rs)).map
            (fun fc => " " ++ fc.1.logical_operator ++ " " ++ fc.2) :=
        List.mem_map_of_mem _ hf
      exact (suffix_append_sub (" " ++ f.logical_operator ++ " ") c).trans
        (mem_sjoin_sub _ hmem)

/-- With exactly one condition the override branch keeps it. -/
theorem cond_single_infix_whereClause (fs : List QueryFilter) (c0 : String)
    (hcs : conditionsOf fs = [c0]) :
    c0.data <:+: (whereClauseOf fs).data := by
  unfold whereClauseOf
  rw [hcs]
  exact suffix_append_sub "WHERE " c0

/-- With three or more conditions the first condition survives as the join
separator. -/
theorem cond_head_infix_whereClause (fs : List QueryFilter) (c0 : String)
    (rest : List String) (hcs : conditionsOf fs = c0 :: rest)
    (h3 : 2 ≤ rest.length) :
    c0.data <:+: (whereClauseOf fs).data := by
  cases rest with
  | nil => simp at h3
  | cons r rs =>
    have hlenle := conditionsOf_length_le fs
    rw [hcs] at hlenle
    unfold whereClauseOf
    rw [hcs]
    dsimp only
    rw [if_neg (by simp)]
    apply infix_append_left
    have hitems : 2 ≤ (((fs.drop 1).zip (r :: rs)).map
        (fun fc => " " ++ fc.1.logical_operator ++ " " ++ fc.2)).length := by
      simp only [List.length_map, List.length_zip, List.length_drop,
        List.length_cons] at h3 hlenle ⊢
      omega
    refine List.IsInfix.trans ?_ (sep_sjoin_sub (" " ++ c0 ++ " ") hitems)
    rw [String.data_append, String.data_append]
    exact ⟨" ".data, " ".data, by rw [List.append_assoc]⟩

theorem whereClauseOf_ne_empty (fs : List QueryFilter)
    (h : conditionsOf fs ≠ []) : whereClauseOf fs ≠ "" := by
  rcases hcs : conditionsOf fs with _ | ⟨c0, rest⟩
  · exact absurd hcs h
  · unfold whereClauseOf
    rw [hcs]
    dsimp only
    intro he
    rcases hr : rest.isEmpty with _ | _
    · rw [hr] at he
      simp only [Bool.false_eq_true, if_false] at he
      have := congrArg String.data he
      rw [String.data_append] at this
      simp at this
    · rw [hr] at he
      simp only [if_true] at he
      have := congrArg String.data he
      rw [String.data_append] at this
      simp at this

theorem build_visualization_query_isOk (config : QueryConfig) :
    (build_visualization_query config).isOk = pyFullMatch config.table_name := by
  unfold build_visualization_query sanitize_table_name
  by_cases h : pyFullMatch config.table_name = true <;>
    simp [h, Except.isOk, Except.toBool]

theorem build_visualization_query_ok {config : QueryConfig} {q : String}
    (h : build_visualization_query config = Except.ok q) :
    q = assembleQuery config config.table_name := by
  unfold build_visualization_query sanitize_table_name at h
  by_cases hm : pyFullMatch config.table_name = true
  · rw [if_pos hm] at h
    cases h
    rfl
  · rw [if_neg hm] at h
    cases h

/-- C4 is false on the code in its containment part: with one unsafe filter
followed by two safe ones, only two conditions are generated, the first of
which is used solely as the join separator of a one-element list — the
returned query does not contain the condition of the first safe filter. -/
theorem claim_C4_counterexample :
    build_visualization_query
      { table_name := "t",
        filters := some [⟨"a", ";", .str "x", "AND"⟩,
          ⟨"b", "=", .str "1", "AND"⟩, ⟨"c", "=", .str "2", "AND"⟩] } =
      Except.ok "SELECT * FROM t WHERE  AND \"c\" = '2'" ∧
    build_filter_condition ⟨"b", "=", .str "1", "AND"⟩ = "\"b\" = '1'" ∧
    ¬ (("\"b\" = '1'" : String).data <:+:
        ("SELECT * FROM t WHERE  AND \"c\" = '2'" : String).data) := by
  exact ⟨rfl, rfl, by decide⟩

/-- C4 amended: filters with operators outside the allow-list contribute no
condition and never make the builder raise (only the table-name gate can);
of the remaining conditions, every one after the first is contained in the
returned query, and the first is contained when there is exactly one
condition or at least three (it then reappears as the join separator) —
with exactly two conditions the first is dropped from the output. -/
theorem claim_C4_amended :
    (∀ config : QueryConfig,
      (build_visualization_query config).isOk = pyFullMatch config.table_name) ∧
    (∀ f : QueryFilter, f.operator ∉ safeOperators →
      build_filter_condition f = "") ∧
    (∀ (config : QueryConfig) (fs : List QueryFilter) (q : String),
      config.filters = some fs →
      build_visualization_query config = Except.ok q →
      ((∀ c ∈ (conditionsOf fs).drop 1, c.data <:+: q.data) ∧
       (∀ c0 rest, conditionsOf fs = c0 :: rest →
         rest = [] ∨ 2 ≤ rest.length → c0.data <:+: q.data))) := by
  refine ⟨build_visualization_query_isOk, ?_, ?_⟩
  · intro f hf
    have hc : safeOperators.contains f.operator = false := by simpa using hf
    unfold build_filter_condition
    rw [hc]
    rfl
  · intro config fs q hfil hok
    have hq := build_visualization_query_ok hok
    subst hq
    have hwhere : whereOf config = whereClauseOf fs := by
      unfold whereOf; rw [hfil]
    have step : ∀ x : List Char, x <:+: (whereClauseOf fs).data →
        conditionsOf fs ≠ [] →
        x <:+: (assembleQuery config config.table_name).data := by
      intro x hx hne
      have hwne : whereOf config ≠ "" := by
        rw [hwhere]; exact whereClauseOf_ne_empty fs hne
      have hp := part_infix_assembleQuery
        (whereOf_mem_queryParts config.table_name hwne)
      rw [hwhere] at hp
      exact hx.trans hp
    constructor
    · intro c hc
      refine step _ (cond_tail_infix_whereClause fs hc) ?_
      intro hnil
      rw [hnil] at hc
      cases hc
    · intro c0 rest hcs hcase
      rcases hcase with rfl | h3
      · exact step _ (cond_single_infix_whereClause fs c0 hcs)
          (by rw [hcs]; simp)
      · exact step _ (cond_head_infix_whereClause fs c0 rest hcs h3)
          (by rw [hcs]; simp)

theorem claim_C4_amended_witness :
    ("\"c\" = '2'" : String).data <:+:
      ("SELECT * FROM t WHERE  AND \"c\" = '2'" : String).data :=
  (claim_C4_amended.2.2
    { table_name := "t",
      filters := some [⟨"a", ";", .str "x", "AND"⟩,
        ⟨"b", "=", .str "1", "AND"⟩, ⟨"c", "=", .str "2", "AND"⟩] }
    [⟨"a", ";", .str "x", "AND"⟩, ⟨"b", "=", .str "1", "AND"⟩,
      ⟨"c", "=", .str "2", "AND"⟩]
    "SELECT * FROM t WHERE  AND \"c\" = '2'" rfl rfl).1
    "\"c\" = '2'" (by decide)

theorem conditionsOf_pair (f1 f2 : QueryFilter)
    (h1 : safeOperators.contains f1.operator = true)
    (h2 : safeOperators.contains f2.operator = true) :
    conditionsOf [f1, f2] =
      [build_filter_condition f1, build_filter_condition f2] := by
  simp [conditionsOf, List.filterMap_cons,
    build_filter_condition_safe_ne f1 h1, build_filter_condition_safe_ne f2 h2]

theorem whereClauseOf_pair (f1 f2 : QueryFilter)
    (h1 : safeOperators.contains f1.operator = true)
    (h2 : safeOperators.contains f2.operator = true) :
    whereClauseOf [f1, f2] =
      "WHERE " ++ (" " ++ f2.logical_operator ++ " " ++
        build_filter_condition f2) := by
  unfold whereClauseOf
  rw [conditionsOf_pair f1 f2 h1 h2]
  rfl

/-- C9: for a config with exactly two allow-listed filters, the WHERE
clause is `WHERE` followed by the second filter's logical operator and the
second condition only (the first condition serves only as join separator of
a one-element list and is dropped); the built query contains the second
condition, and on a concrete instance provably not the first. -/
theorem claim_C9 (config : QueryConfig) (f1 f2 : QueryFilter)
    (hf : config.filters = some [f1, f2])
    (h1 : f1.operator ∈ safeOperators) (h2 : f2.operator ∈ safeOperators) :
    whereOf config =
      "WHERE " ++ (" " ++ f2.logical_operator ++ " " ++
        build_filter_condition f2) ∧
    (∀ q, build_visualization_query config = Except.ok q →
      (build_filter_condition f2).data <:+: q.data) ∧
    build_visualization_query
      { table_name := "t",
        filters := some [⟨"a", "=", .str "1", "AND"⟩,
          ⟨"b", "=", .str "2", "AND"⟩] } =
      Except.ok "SELECT * FROM t WHERE  AND \"b\" = '2'" ∧
    ¬ (("\"a\" = '1'" : String).data <:+:
        ("SELECT * FROM t WHERE  AND \"b\" = '2'" : String).data) := by
  have hb1 : safeOperators.contains f1.operator = true := by simpa using h1
  have hb2 : safeOperators.contains f2.operator = true := by simpa using h2
  have hpair := conditionsOf_pair f1 f2 hb1 hb2
  have hwc := whereClauseOf_pair f1 f2 hb1 hb2
  have hwo : whereOf config = whereClauseOf [f1, f2] := by
    unfold whereOf; rw [hf]
  refine ⟨by rw [hwo, hwc], ?_, rfl, by decide⟩
  intro q hok
  have hq := build_visualization_query_ok hok
  subst hq
  have hc2mem : build_filter_condition f2 ∈ (conditionsOf [f1, f2]).drop 1 := by
    rw [hpair]; simp
  have hinf := cond_tail_infix_whereClause [f1, f2] hc2mem
  have hwne : whereOf config ≠ "" := by
    rw [hwo]
    exact whereClauseOf_ne_empty _ (by rw [hpair]; simp)
  have hp := part_infix_assembleQuery
    (whereOf_mem_queryParts config.table_name hwne)
  rw [hwo] at hp
  exact hinf.trans hp

theorem claim_C9_witness :
    whereOf
      { table_name := "t",
        filters := some [⟨"a", "=", .str "1", "AND"⟩,
          ⟨"b", "=", .str "2", "AND"⟩] } =
      "WHERE " ++ (" " ++ "AND" ++ " " ++
        build_filter_condition ⟨"b", "=", .str "2", "AND"⟩) :=
  (claim_C9 _ ⟨"a", "=", .str "1", "AND"⟩ ⟨"b", "=", .str "2", "AND"⟩ rfl
    (by decide) (by decide)).1

/-! ## Claim C5: per-chart shaping of bar, pie and line queries -/

/-- C5 is false on the code for the line chart: the line-chart query selects
the raw y column with no `SUM` aggregate anywhere in the query text. -/
theorem claim_C5_counterexample :
    build_line_chart_query "t" "x" "y" none none =
      Except.ok "SELECT \"x\", \"y\" FROM t GROUP BY \"x\" ORDER BY \"x\"" ∧
    ¬ (("SUM" : String).data <:+:
        ("SELECT \"x\", \"y\" FROM t GROUP BY \"x\" ORDER BY \"x\"" :
          String).data) := by
  exact ⟨rfl, by decide⟩

/-- C5 amended: for every accepted table name and column pair, the bar and
pie builders group by the axis column with a `SUM` term on the numeric
column (bar's inside a quoted select item, pie's as a real aggregate) and
order descending by the aggregate alias, while the line builder groups by
the axis and orders ascending by it but applies no aggregate at all —
it selects the raw y column. -/
theorem claim_C5_amended (t x y : String) (ht : pyFullMatch t = true) :
    build_bar_chart_query t x y none none =
      Except.ok ("SELECT " ++ sanitize_column_name x ++ ", " ++
        sanitize_column_name ("SUM(" ++ y ++ ") as total_" ++ y) ++ " " ++
        "FROM " ++ t ++ " " ++
        ("GROUP BY " ++ sanitize_column_name x) ++ " " ++
        ("ORDER BY " ++ sanitize_column_name ("total_" ++ y ++ " DESC"))) ∧
    build_pie_chart_query t x y none =
      Except.ok ("SELECT " ++ sanitize_column_name x ++ ", " ++
        ("SUM" ++ "(" ++ sanitize_column_name y ++ ") as " ++ "sum" ++
          "_" ++ y) ++ " " ++
        "FROM " ++ t ++ " " ++
        ("GROUP BY " ++ sanitize_column_name x) ++ " " ++
        ("ORDER BY " ++ sanitize_column_name ("sum_" ++ y ++ " DESC"))) ∧
    build_line_chart_query t x y none none =
      Except.ok ("SELECT " ++ sanitize_column_name x ++ ", " ++
        sanitize_column_name y ++ " " ++ "FROM " ++ t ++ " " ++
        ("GROUP BY " ++ sanitize_column_name x) ++ " " ++
        ("ORDER BY " ++ sanitize_column_name x)) := by
  refine ⟨?_, ?_, ?_⟩
  · unfold build_bar_chart_query build_visualization_query sanitize_table_name
    dsimp only
    rw [if_pos ht]
    dsimp only
    congr 1
    simp only [assembleQuery, queryPartsOf, selectOf, whereOf, groupByOf,
      orderByOf, limitOf, selectPartsOf, sjoin, String.append_assoc,
      List.map, List.append_nil, List.nil_append, List.cons_append]
  · unfold build_pie_chart_query build_visualization_query sanitize_table_name
    dsimp only
    rw [if_pos ht]
    dsimp only
    congr 1
    simp only [assembleQuery, queryPartsOf, selectOf, whereOf, groupByOf,
      orderByOf, limitOf, selectPartsOf, sjoin, String.append_assoc,
      List.map, List.append_nil, List.nil_append, List.cons_append,
      List.filterMap_cons, show strUpper "SUM" = "SUM" from rfl,
      show strLower "SUM" = "sum" from rfl]
  · unfold build_line_chart_query build_visualization_query sanitize_table_name
    dsimp only
    rw [if_pos ht]
    dsimp only
    congr 1
    simp only [assembleQuery, queryPartsOf, selectOf, whereOf, groupByOf,
      orderByOf, limitOf, selectPartsOf, sjoin, String.append_assoc,
      List.map, List.append_nil, List.nil_append, List.cons_append]

theorem claim_C5_amended_witness :
    build_line_chart_query "tab" "x" "y" none none =
      Except.ok ("SELECT " ++ sanitize_column_name "x" ++ ", " ++
        sanitize_column_name "y" ++ " " ++ "FROM " ++ "tab" ++ " " ++
        ("GROUP BY " ++ sanitize_column_name "x") ++ " " ++
        ("ORDER BY " ++ sanitize_column_name "x")) :=
  (claim_C5_amended "tab" "x" "y" (by decide)).2.2

/-! ## Insights calculator (`visualization/insights.py`)

The numeric series handed to `_detect_outliers` is a pandas float64 series;
it is embedded as a list of exact rationals.  The `int` and `NaN` branches
of `_format_value` concern other dtypes and missing data and are outside
this model; decimal rounding is Python's round-half-even at the default
`decimal_places = 2`. -/

def insertRat (x : ℚ) : List ℚ → List ℚ
  | [] => [x]
  | y :: ys => if x ≤ y then x :: y :: ys else y :: insertRat x ys

def sortRat (l : List ℚ) : List ℚ := l.foldr insertRat []

/-- `series.quantile(q)` with pandas' default linear interpolation:
`h = q*(n-1)`, value `x[⌊h⌋] + (h-⌊h⌋)*(x[⌊h⌋+1] - x[⌊h⌋])` over the
sorted series. -/
def quantileLinear (series : List ℚ) (q : ℚ) : ℚ :=
  let xs := sortRat series
  let n := xs.length
  let h := q * ((n : ℚ) - 1)
  let i := (⌊h⌋ : ℤ).toNat
  let lo := xs.getD i 0
  let hi := xs.getD (min (i + 1) (n - 1)) lo
  lo + (h - (⌊h⌋ : ℤ)) * (hi - lo)

/-- Round to the nearest integer, ties to the even integer (CPython's
`round` on floats). -/
def roundHalfEven (q : ℚ) : ℤ :=
  let f := ⌊q⌋
  let r := q - f
  if r < 1 / 2 then f
  else if 1 / 2 < r then f + 1
  else if f % 2 = 0 then f else f + 1

/-- Python `round(q, 2)`. -/
def pyRound2 (q : ℚ) : ℚ := (roundHalfEven (q * 100) : ℚ) / 100

/-- A value after `_format_value`: either a number or the scientific-
notation string used for magnitudes of at least `1e6`. -/
inductive Formatted where
  | num (q : ℚ)
  | text (s : String)
deriving DecidableEq, Repr

/-- Python `f"{value:.2e}"` for `|q| ≥ 1`: sign, mantissa rounded to two
decimals (ties to even), `e+`, two-digit exponent. -/
def sciFormat (q : ℚ) : String :=
  let a := |q|
  let e0 := Nat.log 10 (⌊a⌋ : ℤ).toNat
  let m0 := roundHalfEven (a / (10 : ℚ) ^ e0 * 100)
  let m := if m0 = 1000 then 100 else m0
  let e := if m0 = 1000 then e0 + 1 else e0
  (if q < 0 then "-" else "") ++ toString (m / 100) ++ "." ++
    (if m % 100 < 10 then "0" else "") ++ toString (m % 100) ++ "e+" ++
    (if e < 10 then "0" else "") ++ toString e

/-- `InsightsCalculator._format_value` on a float value: scientific
notation from `1e6` on, otherwise rounded to 2 decimals. -/
def format_value (q : ℚ) : Formatted :=
  if 1000000 ≤ |q| then Formatted.text (sciFormat q)
  else Formatted.num (pyRound2 q)

/-- The dict returned by `_detect_outliers`. -/
structure OutlierReport where
  count : Nat
  percentage : ℚ
  lower_bound : Formatted
  upper_bound : Formatted
  outlier_values : List Formatted
  has_outliers : Bool
deriving DecidableEq, Repr

/-- `InsightsCalculator._detect_outliers`: Tukey fences from the linear-
interpolation quartiles; the outlier mask keeps the original order; up to
the first 10 offending values are reported, formatted.  (On an empty
series the Python body raises `ZeroDivisionError`, caught into an error
dict; the report shape is only produced for non-empty input.) -/
def detect_outliers (series : List ℚ) : OutlierReport :=
  let q1 := quantileLinear series (1 / 4)
  let q3 := quantileLinear series (3 / 4)
  let iqr := q3 - q1
  let lower_bound := q1 - 3 / 2 * iqr
  let upper_bound := q3 + 3 / 2 * iqr
  let outliers := series.filter (fun v => v < lower_bound || upper_bound < v)
  { count := outliers.length
    percentage := pyRound2 ((outliers.length : ℚ) / (series.length : ℚ) * 100)
    lower_bound := format_value lower_bound
    upper_bound := format_value upper_bound
    outlier_values := (outliers.take 10).map format_value
    has_outliers := decide (0 < outliers.length) }

/-! ## Claim C8: outlier detection -/

/-- C8 is false on the code in its universal part: the *reported* bounds
pass through the display formatter, which rounds to 2 decimals, so for
`[0, 1, 3, 7]` (exact lower fence `-33/8 = -4.125`) the reported lower
bound is `-4.12`, not `Q1 - 1.5*(Q3-Q1)`. -/
theorem claim_C8_counterexample :
    (detect_outliers [0, 1, 3, 7]).lower_bound =
      Formatted.num (-103 / 25) ∧
    quantileLinear [0, 1, 3, 7] (1 / 4) -
      3 / 2 * (quantileLinear [0, 1, 3, 7] (3 / 4) -
        quantileLinear [0, 1, 3, 7] (1 / 4)) = -33 / 8 ∧
    Formatted.num ((-103 : ℚ) / 25) ≠ Formatted.num (-33 / 8) := by
  refine ⟨?_, ?_, ?_⟩
  · norm_num [detect_outliers, quantileLinear, sortRat, insertRat,
      format_value, pyRound2, roundHalfEven, Nat.min_def,
      show Int.toNat 0 = 0 from rfl, show Int.toNat 2 = 2 from rfl,
      List.getElem_cons_zero, List.getElem_cons_succ,
      List.getElem?_cons_zero, List.getElem?_cons_succ, Option.getD_some]
    intro habs
    rw [abs_of_pos (by norm_num : (0 : ℚ) < 33 / 8)] at habs
    norm_num at habs
  · norm_num [quantileLinear, sortRat, insertRat, Nat.min_def,
      show Int.toNat 0 = 0 from rfl, show Int.toNat 2 = 2 from rfl,
      List.getElem_cons_zero, List.getElem_cons_succ,
      List.getElem?_cons_zero, List.getElem?_cons_succ, Option.getD_some]
  · norm_num

/-- C8 amended: for every non-empty numeric series the report carries the
Tukey bounds `Q1 - 1.5*(Q3-Q1)` and `Q3 + 1.5*(Q3-Q1)` *after* display
formatting (2-decimal half-even rounding, scientific notation from 1e6 on),
the count and the rounded percentage of values outside the exact bounds,
and at most the first 10 offending values; detection itself always uses the
exact bounds.  For `[1,2,3,4,5,100]` it computes Q1 = 2.25, Q3 = 4.75 (so
IQR = 2.5 and bounds [-1.5, 8.5]) exactly, and flags exactly the value 100
(count 1, has_outliers true). -/
theorem claim_C8_amended (series : List ℚ) (_h : series ≠ []) :
    (detect_outliers series).lower_bound =
      format_value (quantileLinear series (1 / 4) -
        3 / 2 * (quantileLinear series (3 / 4) -
          quantileLinear series (1 / 4))) ∧
    (detect_outliers series).upper_bound =
      format_value (quantileLinear series (3 / 4) +
        3 / 2 * (quantileLinear series (3 / 4) -
          quantileLinear series (1 / 4))) ∧
    (detect_outliers series).count =
      (series.filter (fun v =>
        v < quantileLinear series (1 / 4) -
          3 / 2 * (quantileLinear series (3 / 4) -
            quantileLinear series (1 / 4)) ||
        quantileLinear series (3 / 4) +
          3 / 2 * (quantileLinear series (3 / 4) -
            quantileLinear series (1 / 4)) < v)).length ∧
    (detect_outliers series).percentage =
      pyRound2 (((detect_outliers series).count : ℚ) /
        (series.length : ℚ) * 100) ∧
    (detect_outliers series).outlier_values.length ≤ 10 ∧
    ((detect_outliers series).has_outliers = true ↔
      0 < (detect_outliers series).count) ∧
    quantileLinear [(1 : ℚ), 2, 3, 4, 5, 100] (1 / 4) = 9 / 4 ∧
    quantileLinear [(1 : ℚ), 2, 3, 4, 5, 100] (3 / 4) = 19 / 4 ∧
    detect_outliers [(1 : ℚ), 2, 3, 4, 5, 100] =
      { count := 1, percentage := 1667 / 100,
        lower_bound := Formatted.num (-3 / 2),
        upper_bound := Formatted.num (17 / 2),
        outlier_values := [Formatted.num 100],
        has_outliers := true } := by
  refine ⟨rfl, rfl, rfl, rfl, ?_, ?_, ?_, ?_, ?_⟩
  · simp only [detect_outliers, List.length_map]
    exact List.length_take_le 10 _
  · simp [detect_outliers, decide_eq_true_eq]
  · norm_num [quantileLinear, sortRat, insertRat, Nat.min_def,
      show Int.toNat 1 = 1 from rfl,
      List.getElem_cons_zero, List.getElem_cons_succ,
      List.getElem?_cons_zero, List.getElem?_cons_succ, Option.getD_some]
  · norm_num [quantileLinear, sortRat, insertRat, Nat.min_def,
      show Int.toNat 3 = 3 from rfl,
      List.getElem_cons_zero, List.getElem_cons_succ,
      List.getElem?_cons_zero, List.getElem?_cons_succ, Option.getD_some]
  · norm_num [detect_outliers, quantileLinear, sortRat, insertRat,
      format_value, pyRound2, roundHalfEven, List.filter_cons,
      Bool.or_eq_true, decide_eq_true_eq, Nat.min_def,
      show Int.toNat 3 = 3 from rfl, show Int.toNat 1 = 1 from rfl,
      List.getElem_cons_zero, List.getElem_cons_succ,
      List.getElem?_cons_zero, List.getElem?_cons_succ, Option.getD_some]
    refine ⟨fun habs => ?_, fun habs => ?_⟩
    · rw [abs_of_pos (by norm_num : (0 : ℚ) < 3 / 2)] at habs
      norm_num at habs
    · rw [abs_of_pos (by norm_num : (0 : ℚ) < 17 / 2)] at habs
      norm_num at habs

theorem claim_C8_amended_witness :
    quantileLinear [(1 : ℚ), 2, 3, 4, 5, 100] (1 / 4) = 9 / 4 :=
  (claim_C8_amended [(1 : ℚ), 2, 3, 4, 5, 100] (by simp)).2.2.2.2.2.2.1
